import Mathlib

/-!
# Verification of `src/src/libs/embed/ed.js` (TikTok multi-video embed widget)

Shallow embedding of the widget in Lean 4.  The source file is a merge of two
revisions of the same module: the body of `renderVideos` contains the older
sequential-fetch revision (lines 96–111) immediately followed by the newer
latch/`Promise.all` revision (lines 112–150), and exactly one closing brace is
missing (the file has 37 `\x7b` against 36 `\x7d`).  The indentation determines
the unique one-token repair: the `if (!tiktokScriptLoaded)` block opened at
line 106 closes after line 111, so lines 112–150 execute unconditionally after
the older block.  That reading is what is embedded here.  The same merge left
two `console.error` calls in `fetchOEmbed` (lines 81–82), two `setInterval`
calls in `startAutoSync` (lines 161–162, the first handle being discarded),
and three dead stores at the top of `init` (lines 182–184, each immediately
overwritten by lines 185–187); all of these are embedded as written.

JavaScript dynamic values are modelled by `JSVal` (a string or any non-string
value) and `JSArg` (an array or a non-array value); machine integers do not
occur.  Asynchrony is modelled by splitting `renderVideos` into its atomic
segments between `await` points and driving them with an explicit event
scheduler, faithful to the single-threaded event loop: calling an `async`
function runs its body synchronously up to the first `await`.
-/

/-- A JavaScript value as observed by the widget: a string, or anything else
(`typeof v !== 'string'`). -/
inductive JSVal where
  | str (s : String)
  | other
deriving DecidableEq, Repr

/-! ## String primitives

Models of the JavaScript string methods the widget uses, written over
`List Char` with structural recursion.  `String.prototype.trim` removes
leading and trailing whitespace (modelled with `Char.isWhitespace`, which
covers the ASCII whitespace the claims exercise); `toLowerCase` lowercases
(ASCII suffices for hostnames); `startsWith('#')` inspects the first
character; `slice(1)` drops the first character. -/

/-- Model of `String.prototype.trim`. -/
def jsTrim (s : String) : String :=
  String.mk (((s.data.dropWhile Char.isWhitespace).reverse.dropWhile Char.isWhitespace).reverse)

/-- ASCII lowercasing of one character, as `toLowerCase` acts on hostnames. -/
def lowerChar (c : Char) : Char :=
  if 'A' ≤ c ∧ c ≤ 'Z' then Char.ofNat (c.toNat + 32) else c

/-- Model of `String.prototype.toLowerCase` (ASCII range). -/
def jsToLower (s : String) : String :=
  String.mk (s.data.map lowerChar)

/-- Model of `s.startsWith('#')`. -/
def startsWithHash (s : String) : Bool :=
  match s.data with
  | [] => false
  | c :: _ => c = '#'

/-- Model of `s.slice(1)`. -/
def sliceFrom1 (s : String) : String :=
  String.mk (s.data.drop 1)

/-- The `videos` argument of `init`: an array of values, or a non-array value
(`!Array.isArray(videos)`). -/
inductive JSArg where
  | arr (xs : List JSVal)
  | val (v : JSVal)
deriving DecidableEq, Repr

/-! ## Model of the WHATWG `URL` constructor

`isValidTikTokUrl` observes only whether `new URL(s)` succeeds and, if so, the
parsed hostname.  The model below parses `scheme://[userinfo@]host[:port]/…`:
it requires a nonempty scheme before the first `://`, takes the authority up
to the first `/`, `?` or `#`, drops a userinfo part (everything up to the last
`@`) and a port (everything from the first `:`), and fails when no `://` is
present or the host is empty — which is exactly how the constructor behaves on
the URLs this widget distinguishes. -/

/-- Split a character list at the first `://`, returning the scheme characters
before it and the characters after it; `none` when no `://` occurs. -/
def findSchemeSep : List Char → Option (List Char × List Char)
  | [] => none
  | ':' :: '/' :: '/' :: rest => some ([], rest)
  | c :: rest =>
    match findSchemeSep rest with
    | none => none
    | some (pre, post) => some (c :: pre, post)

/-- The characters of the authority after the last `@` (drops userinfo). -/
def afterUserinfo (auth : List Char) : List Char :=
  auth.foldl (fun acc c => if c = '@' then [] else acc ++ [c]) []

/-- Hostname of an absolute URL per the model above; `none` when parsing
fails (no `://`, empty scheme, or empty host). -/
def parseHostname (s : String) : Option String :=
  match findSchemeSep s.data with
  | none => none
  | some (scheme, rest) =>
    if scheme = [] then none
    else
      let auth := rest.takeWhile (fun c => c ≠ '/' ∧ c ≠ '?' ∧ c ≠ '#')
      let host := (afterUserinfo auth).takeWhile (fun c => c ≠ ':')
      if host = [] then none else some (String.mk host)

/-- `isValidTikTokUrl` (ed.js lines 19–29): a string that parses as an
absolute URL whose lowercased hostname is one of the four allowed TikTok
hosts.  Parse failures are caught and yield `false`. -/
def isValidTikTokUrl (url : JSVal) : Bool :=
  match url with
  | .other => false
  | .str s =>
    match parseHostname (jsTrim s) with
    | none => false
    | some host =>
      let h := jsToLower host
      h = "tiktok.com" || h = "www.tiktok.com" || h = "m.tiktok.com" || h = "vm.tiktok.com"

/-- One step of the `videos.forEach` loop in `normalizeVideos` (ed.js lines
35–40): skip non-strings, trim, skip empty or invalid entries, and add the
trimmed string to the set unless already present (a JS `Set` keeps the first
occurrence and its position). -/
def addEntry (acc : List String) (v : JSVal) : List String :=
  match v with
  | .other => acc
  | .str url =>
    let trimmed := jsTrim url
    if trimmed = "" then acc
    else if ¬ isValidTikTokUrl (.str trimmed) then acc
    else if trimmed ∈ acc then acc else acc ++ [trimmed]

/-- `normalizeVideos` (ed.js lines 31–43): `[]` for a non-array argument,
otherwise the insertion-ordered contents of the `Set` built by the loop. -/
def normalizeVideos : JSArg → List String
  | .val _ => []
  | .arr xs => xs.foldl addEntry []

/-- `normalizeContainerId` (ed.js lines 45–50): `null` for non-strings, trim,
`null` when the trimmed string is empty, otherwise drop a leading `#`. -/
def normalizeContainerId (v : JSVal) : Option String :=
  match v with
  | .other => none
  | .str s =>
    let trimmed := jsTrim s
    if trimmed = "" then none
    else if startsWithHash trimmed then some (sliceFrom1 trimmed)
    else some trimmed

/-! ## The oEmbed fetcher -/

/-- Outcome of `fetch` + `res.json()` for one oEmbed request, as observed by
`fetchOEmbed`: the network layer rejected (or the body was not JSON), or a
response arrived with an HTTP status and with `data.html` being a string, a
non-string value, or absent/falsy (`none`). -/
inductive FetchResult where
  | netError
  | resp (status : Nat) (dataHtml : Option JSVal)
deriving DecidableEq, Repr

/-- The fallback fragment built in the `catch` branch of `fetchOEmbed` (ed.js
line 83): the template literal interpolates the video URL verbatim, with no
HTML escaping. -/
def fallbackFragment (videoUrl : String) : String :=
  "<p style=\"color:red;\">Failed to load TikTok video: " ++ videoUrl ++ "</p>"

/-- `fetchOEmbed` (ed.js lines 66–85) as a pure function from the fetch
outcome: returns the produced HTML fragment together with the number of
`console.error` calls (the merged source logs the error twice, lines 81–82).
`res.ok` is the derived property `200 ≤ status ≤ 299` of the `fetch`
response.  The function is total: every failure is caught and turned into the
fallback fragment, so nothing is raised to the caller. -/
def fetchOEmbed (videoUrl : String) (r : FetchResult) : String × Nat :=
  match r with
  | .netError => (fallbackFragment videoUrl, 2)
  | .resp status dataHtml =>
    if ¬ (200 ≤ status ∧ status ≤ 299) then (fallbackFragment videoUrl, 2)
    else
      match dataHtml with
      | some (.str h) => (h, 0)
      | _ => (fallbackFragment videoUrl, 2)

/-- Success per the spec's words (section 6): HTTP 2xx and a string-valued
`html` field; yields that HTML string.  Stated from the spec, for comparison
with `fetchOEmbed`. -/
def specSuccessHtml : FetchResult → Option String
  | .netError => none
  | .resp status dataHtml =>
    if 200 ≤ status ∧ status ≤ 299 then
      match dataHtml with
      | some (.str h) => some h
      | _ => none
    else none

/-! ## Global state of the module

One record holds the module-level variables of the IIFE (ed.js lines 11–17)
together with the observable state of the DOM and event loop: the containers
(id ↦ innerHTML, only ids present in the document), the `src` attributes of
the script tags in the document, counters of `document.body.appendChild`
calls for scripts and of `innerHTML` assignments, whether an injected script
has an `onload` handler that has not fired yet, the armed `setInterval`
timers (handle and interval), the log of `fetch` invocations (the requested
video URL, in order), the number of `console.error` calls, the number of
`runTikTokParser` invocations that reached a hook, and which of the two
global hooks (`window.tiktokEmbedLoad` / `window.tiktokEmbedLib.render`)
exist. -/
structure Glob where
  tiktokScriptLoaded : Bool
  videoList : List String
  containerId : Option String
  refreshInterval : Nat
  autoSyncTimer : Option Nat
  renderInProgress : Bool
  pendingRender : Bool
  containers : List (String × String)
  scriptSrcs : List String
  scriptAppends : Nat
  innerWrites : Nat
  pendingOnload : Bool
  timers : List (Nat × Nat)
  nextHandle : Nat
  fetchCalls : List String
  errorLogs : Nat
  parserRuns : Nat
  hookEmbedLoad : Bool
  hookLibRender : Bool
deriving DecidableEq, Repr

/-- `src` of the external embed script (ed.js lines 108 and 131). -/
def embedSrc : String := "https://www.tiktok.com/embed.js"

/-- `document.getElementById`: the container's current innerHTML, `none` when
no element with that id exists. -/
def domGet (cs : List (String × String)) (cid : String) : Option String :=
  (cs.find? (fun p => p.1 = cid)).map (fun p => p.2)

/-- Assign `container.innerHTML`, counting the assignment. -/
def setInner (g : Glob) (cid html : String) : Glob :=
  { g with
    containers := g.containers.map (fun p => if p.1 = cid then (p.1, html) else p),
    innerWrites := g.innerWrites + 1 }

/-- Record one `fetch` invocation (issued synchronously when `fetchOEmbed` is
called, before its first `await`). -/
def logFetch (g : Glob) (url : String) : Glob :=
  { g with fetchCalls := g.fetchCalls ++ [url] }

/-- `runTikTokParser` (ed.js lines 52–63): call `window.tiktokEmbedLoad` if it
is a function, else `window.tiktokEmbedLib.render` if present. -/
def runTikTokParser (g : Glob) : Glob :=
  if g.hookEmbedLoad then { g with parserRuns := g.parserRuns + 1 }
  else if g.hookLibRender then { g with parserRuns := g.parserRuns + 1 }
  else g

/-- A falsy `containerId` (`if (!containerId) return;`, ed.js line 89):
`null` or the empty string (which `normalizeContainerId` produces for the
input `"#"`). -/
def containerIdFalsy : Option String → Bool
  | none => true
  | some s => s = ""

/-- A suspended activation of `renderVideos`, at one of its two `await`
points.  Each constructor carries the data live across the suspension: the
resolved container id, and for the sequential loop the URL being awaited, the
URLs still to fetch, and the accumulated `html` string; for the
`Promise.all` the URLs whose fetches were issued (in list order). -/
inductive Step where
  | seqFetch (cid : String) (url : String) (rest : List String) (acc : String)
  | allFetch (cid : String) (urls : List String)
deriving DecidableEq, Repr

/-- Lines 103–113 of ed.js, run synchronously when the sequential loop ends:
assign the accumulated html, run the older script-injection block (no
existing-tag check, no `onload` handler, flag set immediately), close of the
merged `if`, then set the latch (`renderInProgress = true; pendingRender =
false;`). -/
def afterSeqPre (g : Glob) (cid html : String) : Glob :=
  let g := setInner g cid html
  let g :=
    if ¬ g.tiktokScriptLoaded then
      { g with
        scriptSrcs := g.scriptSrcs ++ [embedSrc],
        scriptAppends := g.scriptAppends + 1,
        tiktokScriptLoaded := true }
    else g
  { g with renderInProgress := true, pendingRender := false }

/-- The `finally` block (ed.js lines 143–150) up to the recursive
`renderVideos()` call: clear `renderInProgress`; report whether a pending
render was consumed (in which case the caller re-invokes `renderVideos`). -/
def finallySeg (g : Glob) : Glob × Bool :=
  let g := { g with renderInProgress := false }
  if g.pendingRender then ({ g with pendingRender := false }, true) else (g, false)

/-- Lines 125–142 of ed.js, run synchronously after the `Promise.all`
resolves and the joined html is assigned: if the script is not yet marked
loaded, either find an existing tag with the exact `src` (mark loaded, fall
through to `runTikTokParser`) or append a fresh tag whose `onload` handler
will mark loaded and run the parser, and return early (skipping
`runTikTokParser`; the `finally` block still runs). -/
def postAllScript (g : Glob) : Glob :=
  if ¬ g.tiktokScriptLoaded then
    if embedSrc ∈ g.scriptSrcs then
      runTikTokParser { g with tiktokScriptLoaded := true }
    else
      { g with
        scriptSrcs := g.scriptSrcs ++ [embedSrc],
        scriptAppends := g.scriptAppends + 1,
        pendingOnload := true }
  else runTikTokParser g

/-- What one atomic segment of `renderVideos` ends with: suspension at an
`await`, completion, or completion whose `finally` consumed `pendingRender`
and must re-invoke `renderVideos`. -/
inductive SegOut where
  | suspend (k : Step)
  | done
  | respawn
deriving DecidableEq, Repr

/-- An event-loop action on the widget: invoke `renderVideos()` (a fresh
call, from `refresh`, `init`, a timer tick, or the `finally` block), or
resume a suspended activation at its `await`. -/
inductive Act where
  | call
  | resume (k : Step)
deriving DecidableEq, Repr

/-- The try-block entry (ed.js lines 115–122): with an empty `videoList`
clear the container and return (through `finally`); otherwise issue all the
`fetchOEmbed` calls of the `Promise.all` in list order and suspend. -/
def tryEntry (g : Glob) (cid : String) : Glob × SegOut :=
  match g.videoList with
  | [] =>
    let g := setInner g cid ""
    let (g, re) := finallySeg g
    (g, if re then .respawn else .done)
  | urls =>
    (urls.foldl logFetch g, .suspend (.allFetch cid urls))

/-- One atomic segment of `renderVideos`: from an action to the next `await`
or to completion, threading the global state.  `oracle` gives the outcome of
the `fetch` for each video URL (the world's choice, resolved when the
corresponding `await` resumes). -/
def renderSeg (oracle : String → FetchResult) (a : Act) (g : Glob) : Glob × SegOut :=
  match a with
  | .call =>
    if containerIdFalsy g.containerId then (g, .done)
    else
      let cid := g.containerId.getD ""
      if g.renderInProgress then ({ g with pendingRender := true }, .done)
      else
        match domGet g.containers cid with
        | none => (g, .done)
        | some _ =>
          match g.videoList with
          | [] =>
            tryEntry (afterSeqPre g cid "") cid
          | url :: rest =>
            (logFetch g url, .suspend (.seqFetch cid url rest ""))
  | .resume (.seqFetch cid url rest acc) =>
    let res := fetchOEmbed url (oracle url)
    let g := { g with errorLogs := g.errorLogs + res.2 }
    let acc := acc ++ res.1
    match rest with
    | next :: rest2 =>
      (logFetch g next, .suspend (.seqFetch cid next rest2 acc))
    | [] =>
      tryEntry (afterSeqPre g cid acc) cid
  | .resume (.allFetch cid urls) =>
    let results := urls.map (fun u => fetchOEmbed u (oracle u))
    let g := { g with errorLogs := g.errorLogs + (results.map (fun p => p.2)).sum }
    let g := setInner g cid ((results.map (fun p => p.1)).foldl (· ++ ·) "")
    let g := postAllScript g
    let (g, re) := finallySeg g
    (g, if re then .respawn else .done)

/-- Drive one action to quiescence: when a completing activation's `finally`
consumed `pendingRender`, the recursive `renderVideos()` call (ed.js line
148) runs as a fresh `.call`.  `fuel` bounds that recursion; every theorem
below uses enough fuel that the bound is never hit. -/
def execAct (oracle : String → FetchResult) : Nat → Act → Glob → Glob × Option Step
  | 0, _, g => (g, none)
  | fuel + 1, a, g =>
    match renderSeg oracle a g with
    | (g, .suspend k) => (g, some k)
    | (g, .done) => (g, none)
    | (g, .respawn) => execAct oracle fuel .call g

/-! ## Timers and the public surface -/

/-- `setInterval`: arm a repeating timer and return its fresh handle. -/
def setIntervalM (g : Glob) (ms : Nat) : Nat × Glob :=
  (g.nextHandle,
   { g with nextHandle := g.nextHandle + 1, timers := g.timers ++ [(g.nextHandle, ms)] })

/-- `clearInterval` on a handle. -/
def clearIntervalM (g : Glob) (h : Nat) : Glob :=
  { g with timers := g.timers.filter (fun p => p.1 ≠ h) }

/-- `startAutoSync` (ed.js lines 154–164): clear the tracked timer if any;
then, if the interval is positive, call `setInterval` twice — the merged
source's first call (line 161) discards its handle, the second (line 162) is
stored in `autoSyncTimer`. -/
def startAutoSync (g : Glob) : Glob :=
  let g :=
    match g.autoSyncTimer with
    | some h => { clearIntervalM g h with autoSyncTimer := none }
    | none => g
  if g.refreshInterval > 0 then
    let (_h1, g) := setIntervalM g g.refreshInterval
    let (h2, g) := setIntervalM g g.refreshInterval
    { g with autoSyncTimer := some h2 }
  else g

/-- `stopAutoSync` (ed.js lines 167–172): clear the tracked timer if any. -/
def stopAutoSync (g : Glob) : Glob :=
  match g.autoSyncTimer with
  | some h => { clearIntervalM g h with autoSyncTimer := none }
  | none => g

/-- `init` (ed.js lines 181–191): after the dead stores of lines 182–184
(each variable is immediately reassigned), set the three module variables
from the normalizers, clamp the interval (`Math.max(0, Number(s) || 0)`,
modelled on an integer argument), call `renderVideos()` (running its body to
the first `await`; the returned promise is dropped), then `startAutoSync`. -/
def init (oracle : String → FetchResult) (fuel : Nat) (videos : JSArg)
    (targetContainerId : JSVal) (syncInterval : Int) (g : Glob) : Glob × Option Step :=
  let g :=
    { g with
      videoList := normalizeVideos videos,
      containerId := normalizeContainerId targetContainerId,
      refreshInterval := (max 0 syncInterval).toNat }
  let (g, k) := execAct oracle fuel .call g
  (startAutoSync g, k)

/-- `refresh` (ed.js lines 193–195): just `renderVideos()`. -/
def refresh (oracle : String → FetchResult) (fuel : Nat) (g : Glob) : Glob × Option Step :=
  execAct oracle fuel .call g

/-- `stop` (ed.js lines 197–199): just `stopAutoSync()`. -/
def stop (g : Glob) : Glob :=
  stopAutoSync g

/-- The `onload` event of a freshly injected script (ed.js lines 133–136):
mark loaded and run the parser.  A no-op when no handler is pending (the
older injection block installs no handler). -/
def fireScriptOnload (g : Glob) : Glob :=
  if g.pendingOnload then
    runTikTokParser { g with tiktokScriptLoaded := true, pendingOnload := false }
  else g

/-! ## Event-loop scheduler

A system is the global state plus the queue of suspended `renderVideos`
activations.  Events are the external stimuli: a `refresh()` call, the
resolution of the promise a given suspended activation awaits, a script
`onload`, or a tick of an armed interval timer (which invokes
`renderVideos`). -/
structure Sys where
  g : Glob
  tasks : List Step
deriving DecidableEq, Repr

/-- External events deliverable by the event loop. -/
inductive Ev where
  | refreshEv
  | resumeTask (i : Nat)
  | scriptLoadEv
  | tick (h : Nat)
deriving DecidableEq, Repr

/-- Deliver one event. -/
def sysStep (oracle : String → FetchResult) (fuel : Nat) (s : Sys) (e : Ev) : Sys :=
  match e with
  | .refreshEv =>
    let (g, k) := execAct oracle fuel .call s.g
    { g := g, tasks := s.tasks ++ k.toList }
  | .resumeTask i =>
    match s.tasks.get? i with
    | none => s
    | some k =>
      let (g, k2) := execAct oracle fuel (.resume k) s.g
      { g := g, tasks := s.tasks.eraseIdx i ++ k2.toList }
  | .scriptLoadEv => { s with g := fireScriptOnload s.g }
  | .tick h =>
    if s.g.timers.any (fun p => p.1 = h) then
      let (g, k) := execAct oracle fuel .call s.g
      { g := g, tasks := s.tasks ++ k.toList }
    else s

/-- Deliver a list of events in order. -/
def runEvents (oracle : String → FetchResult) (fuel : Nat) (s : Sys) (es : List Ev) : Sys :=
  es.foldl (sysStep oracle fuel) s


/-! ## Specification-side definitions for comparison -/

/-- The entry a candidate contributes to the Video List, per the spec's
section 4.1: non-strings and entries whose trimmed form is empty or not a
valid TikTok URL contribute nothing; otherwise the trimmed string. -/
def validTrimmed (v : JSVal) : Option String :=
  match v with
  | .other => none
  | .str url =>
    let trimmed := jsTrim url
    if trimmed = "" then none
    else if isValidTikTokUrl (.str trimmed) then some trimmed else none

/-- Keep the first occurrence of each element, discarding later duplicates
(the spec's output order: first-occurrence order of the input). -/
def dedupFirst : List String → List String
  | [] => []
  | x :: xs => x :: dedupFirst (xs.filter (fun y => y ≠ x))
termination_by l => l.length
decreasing_by
  simp only [List.length_cons]
  exact Nat.lt_succ_of_le (List.length_filter_le _ _)

/-! ## Concrete scenarios

A page with a `player` container, used as the initial state of the concrete
runs below.  `oracleAB` resolves the fetch for `u2` with the fragment `"B"`
and every other fetch with `"A"`. -/

/-- Fetch oracle for the concrete runs. -/
def oracleAB : String → FetchResult := fun u =>
  if u = "u2" then .resp 200 (some (.str "B")) else .resp 200 (some (.str "A"))

/-- Fresh page: one configured video, empty `player` container, no script
tag, no timer. -/
def pageOne : Glob :=
  { tiktokScriptLoaded := false, videoList := ["u1"],
    containerId := some "player", refreshInterval := 0, autoSyncTimer := none,
    renderInProgress := false, pendingRender := false,
    containers := [("player", "")], scriptSrcs := [], scriptAppends := 0,
    innerWrites := 0, pendingOnload := false, timers := [], nextHandle := 0,
    fetchCalls := [], errorLogs := 0, parserRuns := 0,
    hookEmbedLoad := true, hookLibRender := false }

/-- Same page with two configured videos. -/
def pageTwo : Glob := { pageOne with videoList := ["u1", "u2"] }

/-- Same page but the host page already includes the embed script tag. -/
def pageWithScript : Glob := { pageOne with scriptSrcs := [embedSrc] }

/-- Same page but no element with the configured container id exists. -/
def noContainerPage : Glob := { pageOne with containers := [] }

/-- `init` with a one-video list, container `"player"` and a 1000 ms
interval, run from the fresh page (the render pass suspends at its first
fetch; then the auto-sync timer is armed). -/
def c2Init : Glob × Option Step :=
  init oracleAB 9 (.arr [.str "https://www.tiktok.com/@a/video/1"]) (.str "player") 1000 pageOne

/-! ## Helper lemmas -/

/-- `addEntry` in terms of the contributed entry. -/
theorem addEntry_eq (acc : List String) (v : JSVal) :
    addEntry acc v = match validTrimmed v with
      | none => acc
      | some t => if t ∈ acc then acc else acc ++ [t] := by
  cases v with
  | other => rfl
  | str url =>
    simp only [addEntry, validTrimmed]
    by_cases h1 : jsTrim url = "" <;> by_cases h2 : isValidTikTokUrl (.str (jsTrim url)) <;>
      simp [h1, h2]

/-- The `forEach`/`Set` loop keeps exactly the contributed entries not
already present, first occurrence first. -/
theorem foldl_addEntry (xs : List JSVal) (acc : List String) :
    xs.foldl addEntry acc
      = acc ++ dedupFirst ((xs.filterMap validTrimmed).filter (fun t => decide (t ∉ acc))) := by
  induction xs generalizing acc with
  | nil => simp [dedupFirst]
  | cons v xs ih =>
    rw [List.foldl_cons, addEntry_eq]
    cases hv : validTrimmed v with
    | none =>
      simp only [List.filterMap_cons, hv]
      exact ih acc
    | some t =>
      simp only [List.filterMap_cons, hv, List.filter_cons]
      by_cases ht : t ∈ acc
      · rw [if_pos ht, show decide (t ∉ acc) = false from by simp [ht]]
        simp only [Bool.false_eq_true, if_false]
        exact ih acc
      · rw [if_neg ht, show decide (t ∉ acc) = true from by simp [ht], if_pos rfl,
          ih (acc ++ [t]), dedupFirst]
        have hfilt : ((xs.filterMap validTrimmed).filter (fun y => decide (y ∉ acc))).filter
              (fun y => decide (¬ y = t))
            = (xs.filterMap validTrimmed).filter (fun y => decide (y ∉ acc ++ [t])) := by
          rw [List.filter_filter]
          apply List.filter_congr
          intro y _
          simp [List.mem_append, not_or, Bool.decide_and, Bool.and_comm]
        rw [hfilt]
        simp

/-! ## Claim theorems -/

/-- C3: for every input list of candidate video URLs, the normalized Video
List contains exactly the entries that are valid after trimming, with later
duplicates (by exact trimmed string) discarded, in first-occurrence order of
the input; and the spec's example input normalizes to the single TikTok
URL. -/
theorem c3_normalizeVideos_valid_unique_first_occurrence :
    (∀ xs : List JSVal, normalizeVideos (.arr xs) = dedupFirst (xs.filterMap validTrimmed))
    ∧ normalizeVideos (.arr [.str "https://www.tiktok.com/@a/video/1", .str "not a url",
        .str "https://www.tiktok.com/@a/video/1", .str "https://evil.com/x"])
      = ["https://www.tiktok.com/@a/video/1"] := by
  constructor
  · intro xs
    have h := foldl_addEntry xs []
    simpa [normalizeVideos] using h
  · decide

/-- C4: container-id normalization strips a leading `#` from the trimmed
input, trims whitespace, and returns `null` for empty or non-string input;
`"#player"` and `"player"` both yield `"player"`, and `""` and non-string
input yield `null`. -/
theorem c4_normalizeContainerId_spec :
    normalizeContainerId (.str "#player") = some "player"
    ∧ normalizeContainerId (.str "player") = some "player"
    ∧ normalizeContainerId (.str "") = none
    ∧ normalizeContainerId .other = none
    ∧ (∀ s : String, jsTrim s = "" → normalizeContainerId (.str s) = none)
    ∧ (∀ s : String, jsTrim s ≠ "" → startsWithHash (jsTrim s) = true →
        normalizeContainerId (.str s) = some (sliceFrom1 (jsTrim s)))
    ∧ (∀ s : String, jsTrim s ≠ "" → startsWithHash (jsTrim s) = false →
        normalizeContainerId (.str s) = some (jsTrim s)) := by
  refine ⟨by decide, by decide, by decide, rfl, ?_, ?_, ?_⟩
  · intro s h
    simp [normalizeContainerId, h]
  · intro s h1 h2
    simp [normalizeContainerId, h1, h2]
  · intro s h1 h2
    simp [normalizeContainerId, h1, h2]

/-- Witness for C4: the general clauses applied at the concrete input
`"  #player "`. -/
theorem c4_normalizeContainerId_spec_witness :
    normalizeContainerId (.str "  #player ") = some "player" := by
  have h := c4_normalizeContainerId_spec.2.2.2.2.2.1 "  #player " (by decide) (by decide)
  simpa using h

/-- C5: the oEmbed fetcher is a total function of the fetch outcome (nothing
is raised to the caller): when the response is HTTP 2xx with a string-valued
`html` field it returns that string (and logs nothing); on every other
outcome it returns the fallback fragment — which contains the failing URL —
and logs the error. -/
theorem c5_fetchOEmbed_success_or_fallback (url : String) (r : FetchResult) :
    (∀ h : String, specSuccessHtml r = some h → fetchOEmbed url r = (h, 0))
    ∧ (specSuccessHtml r = none →
        fetchOEmbed url r = (fallbackFragment url, 2)
        ∧ 0 < (fetchOEmbed url r).2
        ∧ ∃ pre post, (fetchOEmbed url r).1 = pre ++ url ++ post) := by
  constructor
  · intro h hs
    cases r with
    | netError => simp [specSuccessHtml] at hs
    | resp status dataHtml =>
      by_cases hok : 200 ≤ status ∧ status ≤ 299
      · cases dataHtml with
        | none => simp [specSuccessHtml, hok] at hs
        | some v =>
          cases v with
          | str s =>
            simp only [specSuccessHtml, if_pos hok, Option.some.injEq] at hs
            simp [fetchOEmbed, hok, hs]
          | other => simp [specSuccessHtml, hok] at hs
      · simp [specSuccessHtml, hok] at hs
  · intro hn
    have hfall : fetchOEmbed url r = (fallbackFragment url, 2) := by
      cases r with
      | netError => rfl
      | resp status dataHtml =>
        by_cases hok : 200 ≤ status ∧ status ≤ 299
        · cases dataHtml with
          | none => simp [fetchOEmbed, hok]
          | some v =>
            cases v with
            | str s => simp [specSuccessHtml, hok] at hn
            | other => simp [fetchOEmbed, hok]
        · simp [fetchOEmbed, hok]
    refine ⟨hfall, ?_, ?_⟩
    · rw [hfall]
      exact Nat.zero_lt_succ 1
    · rw [hfall]
      exact ⟨"<p style=\"color:red;\">Failed to load TikTok video: ", "</p>", rfl⟩

/-- Witness for C5: a 200 response with html `"X"` yields `"X"` with no
log; a 404 yields the fallback fragment with two logs. -/
theorem c5_fetchOEmbed_success_or_fallback_witness :
    fetchOEmbed "u" (.resp 200 (some (.str "X"))) = ("X", 0)
    ∧ fetchOEmbed "u" (.resp 404 none) = (fallbackFragment "u", 2) :=
  ⟨(c5_fetchOEmbed_success_or_fallback "u" (.resp 200 (some (.str "X")))).1 "X" (by decide),
   ((c5_fetchOEmbed_success_or_fallback "u" (.resp 404 none)).2 (by decide)).1⟩

/-- C10: the fallback fragment is exactly the literal
`<p style="color:red;">Failed to load TikTok video: ` followed by the input
URL verbatim and `</p>`, with no HTML escaping — markup-significant
characters in the URL appear unescaped. -/
theorem c10_fallback_fragment_verbatim :
    (∀ url r, specSuccessHtml r = none →
      (fetchOEmbed url r).1
        = "<p style=\"color:red;\">Failed to load TikTok video: " ++ url ++ "</p>")
    ∧ (fetchOEmbed "<i>\"x\"</i>" .netError).1
      = "<p style=\"color:red;\">Failed to load TikTok video: <i>\"x\"</i></p>" := by
  constructor
  · intro url r hn
    have h := ((c5_fetchOEmbed_success_or_fallback url r).2 hn).1
    rw [h]
    rfl
  · decide

/-- C8: when the configured container id does not resolve to an element at
render time (and no pass is in flight), `renderVideos` completes as a silent
no-op: the global state — fetch log, error log, DOM, and the idle render
state — is returned unchanged and no activation is suspended; the same holds
when the container id itself is falsy. -/
theorem c8_missing_container_silent_noop (oracle : String → FetchResult) (fuel : Nat)
    (g : Glob) (hidle : g.renderInProgress = false)
    (hmiss : containerIdFalsy g.containerId = true
      ∨ ∃ cid, g.containerId = some cid ∧ cid ≠ "" ∧ domGet g.containers cid = none) :
    execAct oracle (fuel + 1) .call g = (g, none) := by
  cases hmiss with
  | inl hf =>
    simp [execAct, renderSeg, hf]
  | inr hex =>
    obtain ⟨cid, hid, hne, hdom⟩ := hex
    have hf : containerIdFalsy g.containerId = false := by
      simp [containerIdFalsy, hid, hne]
    simp [execAct, renderSeg, hf, hid, hidle, hdom]

/-- Witness for C8: on the page with no `player` element, a `refresh` leaves
the state untouched and suspends nothing. -/
theorem c8_missing_container_silent_noop_witness :
    execAct oracleAB 1 .call noContainerPage = (noContainerPage, none) :=
  c8_missing_container_silent_noop oracleAB 0 noContainerPage (by decide)
    (Or.inr ⟨"player", by decide, by decide, by decide⟩)

/-- C9: `stop()` changes only the auto-sync timer state — it empties the
timer handle and removes the tracked timer — and leaves everything else
unchanged: the rendered container contents, the Video List, the container
id, the script-loaded flag, and all the other observables. -/
theorem c9_stop_frame (g : Glob) :
    (stop g).autoSyncTimer = none
    ∧ (stop g).timers = (match g.autoSyncTimer with
        | some h => g.timers.filter (fun p => p.1 ≠ h)
        | none => g.timers)
    ∧ (stop g).containers = g.containers
    ∧ (stop g).videoList = g.videoList
    ∧ (stop g).containerId = g.containerId
    ∧ (stop g).tiktokScriptLoaded = g.tiktokScriptLoaded
    ∧ (stop g).refreshInterval = g.refreshInterval
    ∧ (stop g).renderInProgress = g.renderInProgress
    ∧ (stop g).pendingRender = g.pendingRender
    ∧ (stop g).scriptSrcs = g.scriptSrcs
    ∧ (stop g).scriptAppends = g.scriptAppends
    ∧ (stop g).innerWrites = g.innerWrites
    ∧ (stop g).pendingOnload = g.pendingOnload
    ∧ (stop g).nextHandle = g.nextHandle
    ∧ (stop g).fetchCalls = g.fetchCalls
    ∧ (stop g).errorLogs = g.errorLogs
    ∧ (stop g).parserRuns = g.parserRuns
    ∧ (stop g).hookEmbedLoad = g.hookEmbedLoad
    ∧ (stop g).hookLibRender = g.hookLibRender := by
  cases h : g.autoSyncTimer <;>
    simp [stop, stopAutoSync, clearIntervalM, h]

/-- C1 fails on the code: with one configured video, a second `refresh()`
issued while the first pass awaits its first sequential fetch does not merely
set the pending flag — `renderInProgress` is still unset at that point (the
merged code sets it only after the sequential loop), so the second call
starts a full second pass.  After both passes run to completion the fetch
log holds 4 calls, not the claimed N = 1; and after the two overlapping
triggers `pendingRender` is `false` while two activations are suspended. -/
theorem c1_overlapping_refresh_not_coalesced :
    pageOne.videoList.length = 1
    ∧ (runEvents oracleAB 9 { g := pageOne, tasks := [] }
        [.refreshEv, .refreshEv]).g.pendingRender = false
    ∧ (runEvents oracleAB 9 { g := pageOne, tasks := [] }
        [.refreshEv, .refreshEv]).tasks.length = 2
    ∧ (runEvents oracleAB 9 { g := pageOne, tasks := [] }
        [.refreshEv, .refreshEv, .resumeTask 0, .resumeTask 0, .resumeTask 0,
          .resumeTask 0]).g.fetchCalls.length = 4 := by
  decide

/-- C2 fails on the code: `init` with a 1000 ms interval arms two repeating
timers (the merged `startAutoSync` calls `setInterval` twice, discarding the
first handle), `stop()` clears only the tracked one, and a subsequent tick
of the orphaned timer still triggers a render pass that issues a fetch. -/
theorem c2_start_arms_two_timers_and_stop_leaves_orphan :
    c2Init.1.timers = [(0, 1000), (1, 1000)]
    ∧ c2Init.1.autoSyncTimer = some 1
    ∧ (stop c2Init.1).autoSyncTimer = none
    ∧ (stop c2Init.1).timers = [(0, 1000)]
    ∧ (sysStep oracleAB 9 { g := stop c2Init.1, tasks := c2Init.2.toList }
        (.tick 0)).g.fetchCalls.length
      = (stop c2Init.1).fetchCalls.length + 1 := by
  decide

/-- C6 fails on the code: in a completed pass over the two-video list the
final container content is the concatenation of the fragments in Video List
order (`"AB"`), but it is written in two `innerHTML` assignments — once by
the merged sequential loop and once after the `Promise.all` — not in one
single assignment, and every URL is fetched twice per pass. -/
theorem c6_markup_order_but_two_assignments :
    domGet (runEvents oracleAB 9 { g := pageTwo, tasks := [] }
        [.refreshEv, .resumeTask 0, .resumeTask 0, .resumeTask 0]).g.containers "player"
      = some "AB"
    ∧ (runEvents oracleAB 9 { g := pageTwo, tasks := [] }
        [.refreshEv, .resumeTask 0, .resumeTask 0, .resumeTask 0]).g.innerWrites = 2
    ∧ (runEvents oracleAB 9 { g := pageTwo, tasks := [] }
        [.refreshEv, .resumeTask 0, .resumeTask 0, .resumeTask 0]).g.fetchCalls
      = ["u1", "u2", "u1", "u2"] := by
  decide

/-- C7 fails on the code: on a page that already contains a script tag with
the exact embed `src`, the first render pass still appends a second tag (the
merged code's first injection block performs no existing-tag check) and
marks the script loaded immediately, with no `onload` handler pending — not
after a load event as claimed. -/
theorem c7_script_injected_without_existing_check :
    pageWithScript.scriptSrcs = [embedSrc]
    ∧ (runEvents oracleAB 9 { g := pageWithScript, tasks := [] }
        [.refreshEv, .resumeTask 0, .resumeTask 0]).g.scriptSrcs = [embedSrc, embedSrc]
    ∧ (runEvents oracleAB 9 { g := pageWithScript, tasks := [] }
        [.refreshEv, .resumeTask 0, .resumeTask 0]).g.scriptAppends = 1
    ∧ (runEvents oracleAB 9 { g := pageWithScript, tasks := [] }
        [.refreshEv, .resumeTask 0]).g.tiktokScriptLoaded = true
    ∧ (runEvents oracleAB 9 { g := pageWithScript, tasks := [] }
        [.refreshEv, .resumeTask 0]).g.pendingOnload = false := by
  decide

/-- Witness for C10: a 500 response yields the exact fallback fragment for
the URL `"u"`. -/
theorem c10_fallback_fragment_verbatim_witness :
    (fetchOEmbed "u" (.resp 500 none)).1
      = "<p style=\"color:red;\">Failed to load TikTok video: u</p>" :=
  c10_fallback_fragment_verbatim.1 "u" (.resp 500 none) (by decide)
